import Mathlib

/-!
Verification of `ServerManager.py`: a shallow embedding of the `Server`
(process supervisor) and `ServerManager` (registry) classes, together with
proofs about the claims of the specification.

Conventions of the embedding:
* Machine state that Python mutates in place is passed explicitly.
* `queue.Queue` is a `List String` (front = oldest element); a bounded
  queue's `put` preceded by the `full`/`get` eviction of the workers is
  `pushBounded`.
* `process.poll()` is an `Option Int`: `none` means the child is alive,
  `some c` means it exited with code `c`.
* Exceptions are `Except String`.
* Side effects of `shutdown`/`run` (queue writes, signals, sleeps, waits,
  joins, prints) are recorded in an event trace.
-/

namespace ServerManagerPy

/-- `process.poll()` result: `none` = alive, `some c` = exited with code `c`. -/
abbrev Poll := Option Int

/-- The normalized `_shutdown_instruction` attribute set by `Server.__init__`
(lines 29-40): `None`, a single string, or a tuple of strings. -/
inductive ShutdownInstr where
  | noInstr
  | single (s : String)
  | seq (l : List String)
  deriving DecidableEq, Repr

/-- Python truthiness of the `_shutdown_instruction` attribute, as tested by
`if self._shutdown_instruction:` in `Server.shutdown` (line 127): `None`,
the empty string and the empty tuple are falsy. -/
def instrTruthy : ShutdownInstr → Bool
  | .noInstr => false
  | .single s => !s.isEmpty
  | .seq l => !l.isEmpty

/-- State of one `Server` object.  `name` is `none` when `__init__` was given
a non-string `server_name` and therefore never set the attribute
(lines 20-21). `procPoll` is meaningful only once `ran` is true. -/
structure ServerState where
  name : Option String
  commandList : List String
  shutdownInstruction : ShutdownInstr
  cwd : Option String
  queueMax : Nat
  outputQueue : List String
  inputQueue : List String
  errorQueue : List String
  ran : Bool
  running : Bool
  printFlag : Bool
  procPoll : Poll
  deriving DecidableEq, Repr

/-- `queue.Queue.put` after the worker's `if q.full(): q.get()` eviction
(`output_worker` lines 202-204, `error_worker` lines 224-226): on a bounded
queue of capacity `cap`, an insert when full first drops the oldest line. -/
def pushBounded (cap : Nat) (q : List String) (x : String) : List String :=
  if cap ≤ q.length then q.drop 1 ++ [x] else q ++ [x]

/-- Pushing a whole list of lines, oldest first, through `pushBounded`. -/
def pushAll (cap : Nat) (q : List String) (xs : List String) : List String :=
  xs.foldl (pushBounded cap) q

/-- `Server.read` (lines 107-111): non-blocking pop from the stdout queue,
returning the empty string (and the unchanged queue) when empty. -/
def readFromQueue (q : List String) : String × List String :=
  match q with
  | [] => ("", [])
  | x :: rest => (x, rest)

/-- `Server.read` on a server state: pops `_output_queue`. -/
def read (st : ServerState) : String × ServerState :=
  let (s, q) := readFromQueue st.outputQueue
  (s, { st with outputQueue := q })

/-- `Server.read_error` (lines 113-117) on a server state: pops `_error_queue`. -/
def read_error (st : ServerState) : String × ServerState :=
  let (s, q) := readFromQueue st.errorQueue
  (s, { st with errorQueue := q })

/-- A Python value as passed to `Server.write`; only the distinction
string / non-string matters to the code (line 120). -/
inductive PyVal where
  | str (s : String)
  | nonStr
  deriving DecidableEq, Repr

/-- Unconditional enqueue onto the unbounded `_input_queue`
(`put_nowait`, line 122). -/
def writeStr (st : ServerState) (s : String) : ServerState :=
  { st with inputQueue := st.inputQueue ++ [s] }

/-- `Server.write` (lines 119-122): raises `ValueError` unless the payload's
type is exactly `str`; otherwise enqueues it onto `_input_queue` unchanged. -/
def write (st : ServerState) (v : PyVal) : Except String ServerState :=
  match v with
  | .str s => .ok (writeStr st s)
  | .nonStr => .error "input_string must be string"

/-- One iteration of the body of `Server.input_worker` (lines 208-215) applied
to a dequeued line, up to the point the line is ready to be written to the
child's stdin: the check `input_string[-1] == '\n'` indexes the last
character, which raises `IndexError` on the empty string (`none` here);
otherwise a missing trailing newline is appended. -/
def inputWorkerLine (line : String) : Option String :=
  if line.isEmpty then none
  else if line.back = '\n' then some line else some (line ++ "\n")

/-- `Server.is_running` (lines 156-165): if the server never ran, `false`
without touching the process; otherwise poll the child, and on exit record
`_running = False`.  Returns the possibly updated state and the result. -/
def is_running (st : ServerState) : ServerState × Bool :=
  if st.ran then
    match st.procPoll with
    | none => (st, true)
    | some _ => ({ st with running := false }, false)
  else (st, false)

/-- The abstract lifecycle state of a supervisor, derived from the concrete
fields: never ran = NotStarted, child alive = Running, child exited =
Stopped with its exit code. -/
inductive AbsState where
  | notStarted
  | runningS
  | stopped (c : Int)
  deriving DecidableEq, Repr

def abstractState (st : ServerState) : AbsState :=
  if st.ran then
    match st.procPoll with
    | none => .runningS
    | some c => .stopped c
  else .notStarted

/-- Observable effects of `Server.shutdown` and `Server.run`, in program
order.  `enqueueStdin s` is a `self.write(s)` call landing in
`_input_queue`; `terminate` is `self._process.terminate()` (the graceful
signal); `kill` would be `self._process.kill()` (the forced signal — never
emitted by this code); `waitProc t` is `self._process.wait(t)`. -/
inductive Event where
  | enqueueStdin (s : String)
  | sleepSec (d : Nat)
  | terminate
  | kill
  | waitProc (t : Nat)
  | printLine (s : String)
  | joinOutput
  | joinInput
  | joinError
  deriving DecidableEq, Repr

def Event.isWait : Event → Bool
  | .waitProc _ => true
  | _ => false

/-- The part of a trace strictly before the `process.wait` call. -/
def beforeWait (evs : List Event) : List Event :=
  evs.takeWhile (fun e => !e.isWait)

/-- The stdin-queue writes recorded in a trace, in order. -/
def stdinWrites (evs : List Event) : List String :=
  evs.filterMap (fun e => match e with | .enqueueStdin s => some s | _ => none)

/-- Environment oracle for one `shutdown` call: whether `process.wait`
returned within the timeout, which workers were still alive at the join
checks, and what `poll` reports at the final check (lines 150-154). -/
structure ProcEnv where
  exitsInWait : Bool
  outputAlive : Bool
  inputAlive : Bool
  errorAlive : Bool
  finalPoll : Poll
  deriving DecidableEq, Repr

/-- The instruction loop of `Server.shutdown` (lines 131-133): each
instruction is written to the stdin queue, then the call sleeps
`instruction_delay`. -/
def sendInstructions (d : Nat) : ServerState → List String → ServerState × List Event
  | st, [] => (st, [])
  | st, i :: rest =>
    let next := sendInstructions d (writeStr st i) rest
    (next.1, Event.enqueueStdin i :: Event.sleepSec d :: next.2)

/-- Lines 141-154 of `Server.shutdown`: joining the three workers (writing
the `"\n"` sentinel to unblock a live input worker), then the final poll:
`None` raises `Exception("Process failed to close")`, an exit code clears
`_running` and is returned. -/
def shutdownJoins (st : ServerState) (env : ProcEnv) (evs : List Event) :
    ServerState × List Event × Except String (Option Int) :=
  let evs2 := if env.outputAlive then evs ++ [Event.joinOutput] else evs
  let stepIn :=
    if env.inputAlive then
      (writeStr st "\n", evs2 ++ [Event.enqueueStdin "\n", Event.joinInput])
    else (st, evs2)
  let evs3 := if env.errorAlive then stepIn.2 ++ [Event.joinError] else stepIn.2
  match env.finalPoll with
  | none => ({ stepIn.1 with procPoll := none }, evs3, .error "Process failed to close")
  | some c =>
    ({ stepIn.1 with procPoll := some c, running := false }, evs3, .ok (some c))

/-- Lines 126-135 of `Server.shutdown`: `if self._shutdown_instruction:` is
a truthiness test; a string instruction is written once, a tuple is written
element by element through the sleep loop, and a falsy instruction (`None`
by construction) falls to `self._process.terminate()`.  The `noInstr` match
arm is unreachable because `instrTruthy .noInstr` is false. -/
def instrPhase (st : ServerState) (instructionDelay : Nat) : ServerState × List Event :=
  if instrTruthy st.shutdownInstruction then
    match st.shutdownInstruction with
    | .single s => (writeStr st s, [Event.enqueueStdin s])
    | .seq l => sendInstructions instructionDelay st l
    | .noInstr => (st, [])
  else
    (st, [Event.terminate])

/-- `Server.shutdown` (lines 124-154).  Returns the final state, the event
trace, and either the Python return value (`none` for the no-op fall-through,
`some c` for `self._process.returncode`) or the raised exception.  The
`AttributeError` arises because the timeout handler prints `self.name`
(line 139), an attribute `__init__` never set when `server_name` was not a
string. -/
def shutdown (st : ServerState) (env : ProcEnv) (shutdownWait instructionDelay : Nat) :
    ServerState × List Event × Except String (Option Int) :=
  let polled := is_running st
  if polled.2 then
    let sent := instrPhase polled.1 instructionDelay
    let st2 := sent.1
    let evs1 := sent.2 ++ [Event.waitProc shutdownWait]
    if env.exitsInWait then
      shutdownJoins st2 env evs1
    else
      match st2.name with
      | none => (st2, evs1, .error "AttributeError: name")
      | some nm =>
        shutdownJoins st2 env (evs1 ++ [Event.printLine (nm ++ " ERROR: Process failed to terminate")])
  else
    (polled.1, [], .ok none)

/-- Identity of the three queues owned by a `Server`. -/
inductive QueueId where
  | outQ
  | inQ
  | errQ
  deriving DecidableEq, Repr

/-- The queue object `Server.run` hands to `Server.output_worker`
(line 90): `self._output_queue`. -/
def outputWorkerQueueArg : QueueId := .outQ

/-- The queue object `Server.run` hands to `Server.input_worker`
(line 93): `self._input_queue`. -/
def inputWorkerQueueArg : QueueId := .inQ

/-- The queue object `Server.run` hands to `Server.error_worker`
(line 96): `self._input_queue`. -/
def errorWorkerQueueArg : QueueId := .inQ

/-- `q.full()` followed by the eviction-then-`put` of the stream workers,
resolved against the queue actually passed: `_output_queue` and
`_error_queue` were built with `maxsize = queue_max` (lines 61, 63) while
`_input_queue` is unbounded (line 62), so its `full()` is always false. -/
def queuePut (st : ServerState) (qid : QueueId) (x : String) : ServerState :=
  match qid with
  | .outQ => { st with outputQueue := pushBounded st.queueMax st.outputQueue x }
  | .inQ => { st with inputQueue := st.inputQueue ++ [x] }
  | .errQ => { st with errorQueue := pushBounded st.queueMax st.errorQueue x }

/-- One iteration of `Server.error_worker`'s loop body (lines 219-226) for a
line read from the child's stderr: a falsy (empty) line is skipped,
otherwise the line is printed and pushed onto the queue the worker was
given — which `run` wired to `_input_queue` (`errorWorkerQueueArg`). -/
def errorWorkerStep (st : ServerState) (line : String) : ServerState :=
  if line.isEmpty then st else queuePut st errorWorkerQueueArg line

/-- One iteration of `Server.output_worker`'s loop body (lines 197-204) for a
line read from the child's stdout: a falsy (empty) line is skipped,
otherwise the line is pushed onto the queue the worker was given
(`outputWorkerQueueArg`, i.e. `_output_queue`). -/
def outputWorkerStep (st : ServerState) (line : String) : ServerState :=
  if line.isEmpty then st else queuePut st outputWorkerQueueArg line

/-- Result of one `Server.run` call (lines 82-105): the state after the call,
the trace of the embedded `shutdown` call if one happened, whether the
`Popen` attached the three standard streams as pipes (the non-debug branch,
lines 87-88) or inherited them (debug branch, line 85), how many worker
threads were created and started (lines 89-100), whether `self.shutdown()`
was called (line 105), and the Python return value (`some true` for the
explicit `return True`, `none` for falling off the end with no `return`). -/
structure RunOutcome where
  state : ServerState
  events : List Event
  streamsPiped : Bool
  workersStarted : Nat
  calledShutdown : Bool
  result : Option Bool
  deriving DecidableEq, Repr

/-- `Server.run` (lines 82-105).  `spawnPoll` is what `self._process.poll()`
reports right after the spawn (line 102).  Accessing `self.name` while
building the worker arguments (line 90) raises `AttributeError` when
`__init__` never set the attribute.  The embedded `shutdown` call uses the
defaults `shutdown_wait=10, instruction_delay=1`. -/
def run (st : ServerState) (debug : Bool) (spawnPoll : Poll) (env : ProcEnv) :
    Except String RunOutcome :=
  let st1 := { st with ran := true, procPoll := spawnPoll }
  match st1.name with
  | none => .error "AttributeError: name"
  | some _ =>
    let st2 := { st1 with running := true }
    match spawnPoll with
    | none =>
      .ok { state := st2, events := [], streamsPiped := !debug, workersStarted := 3,
            calledShutdown := false, result := some true }
    | some _ =>
      let sd := shutdown st2 env 10 1
      match sd.2.2 with
      | .error e => .error e
      | .ok _ =>
        .ok { state := sd.1, events := sd.2.1, streamsPiped := !debug, workersStarted := 3,
              calledShutdown := true, result := none }

/-- A `ServerManager`: the `_servers` dict as an association list in
insertion order; Python dict keys are unique. -/
structure Manager where
  servers : List (String × ServerState)
  deriving DecidableEq, Repr

/-- `self._servers.get(server_name)` (dict lookup). -/
def findServer (m : Manager) (name : String) : Option ServerState :=
  (m.servers.find? (fun p => p.1 == name)).map (fun p => p.2)

/-- `ServerManager.send_all` (lines 273-274): `serv.write(message)` on every
registered server, with no check of its running state. -/
def send_all (m : Manager) (message : String) : Manager :=
  { servers := m.servers.map (fun p => (p.1, writeStr p.2 message)) }

/-- The effect of `ServerManager.send` (lines 291-295) on one registry
entry: the looked-up server (`p.1 == name`) is written to only when
`serv.is_running() is True` — note the poll inside `is_running` may clear
the server's `_running` flag as a side effect even when no write happens;
other entries are untouched. -/
def sendEntry (name message : String) (p : String × ServerState) : ServerState :=
  if p.1 == name then
    let polled := is_running p.2
    if polled.2 then writeStr polled.1 message else polled.1
  else p.2

/-- `ServerManager.send` (lines 291-295), lifted to the whole `_servers`
dict: only the entry whose key is `server_name` is affected, via
`sendEntry`; an unknown name leaves the registry unchanged. -/
def send (m : Manager) (name message : String) : Manager :=
  { servers := m.servers.map (fun p => (p.1, sendEntry name message p)) }

/-- The `queue_max` argument of `Server.__init__` as a Python value: an
integer or anything else (lines 54-55 only test `isinstance(queue_max, int)`). -/
inductive QueueMaxArg where
  | intArg (n : Int)
  | nonInt
  deriving DecidableEq, Repr

/-- The `shutdown_instruction` argument of `Server.__init__`: `None`, a
string, a tuple/list of Python values, or any other truthy value. -/
inductive InstrArg where
  | noneA
  | strA (s : String)
  | listA (l : List PyVal)
  | otherA
  deriving DecidableEq, Repr

/-- Element check of lines 33-35: the first non-string element aborts with
`ValueError`; otherwise the strings are collected in order. -/
def checkInstrElems : List PyVal → Except String (List String)
  | [] => .ok []
  | .str s :: rest => (checkInstrElems rest).map (fun l => s :: l)
  | .nonStr :: _ => .error "shutdown_instruction element not str"

/-- Lines 29-40 of `Server.__init__`: `if shutdown_instruction:` is a
truthiness test, so `None`, `""` and `()` all fall to the `else` that stores
`None`; a (truthy) string is kept as is, a (truthy) tuple/list must contain
only strings, and any other truthy value raises `ValueError`. -/
def checkShutdownInstruction : InstrArg → Except String ShutdownInstr
  | .noneA => .ok .noInstr
  | .strA s => if s.isEmpty then .ok .noInstr else .ok (.single s)
  | .listA l =>
    if l.isEmpty then .ok .noInstr
    else (checkInstrElems l).map (fun strs => .seq strs)
  | .otherA => .error "shutdown_instruction must be type str"

/-- Lines 42-51 of `Server.__init__`: a truthy `cwd` argument is kept;
otherwise the command list is scanned for the first absolute-path token and
its parent directory is taken.  `isAbs` and `parentDir` stand for the
platform functions `os.path.isabs` and `os.path.split(item)[0]`, which are
outside this repository. -/
def deriveCwd (isAbs : String → Bool) (parentDir : String → String)
    (cwdArg : Option String) (commandList : List String) : Option String :=
  match cwdArg with
  | some c => if c.isEmpty then (commandList.find? isAbs).map parentDir else some c
  | none => (commandList.find? isAbs).map parentDir

/-- `Server.__init__` (lines 17-77) for a tuple/list `init_command` (the
line 22-23 branch; a string command differs only in going through
`shlex.split` first).  Checks run in source order: `server_name` (line 20,
never raising — a non-string simply leaves `self.name` unset),
`shutdown_instruction` (lines 29-40), `cwd` (lines 42-51), then `queue_max`
(lines 54-57); the queues start empty, `_running = _ran = False`, and the
print flag mirrors `print_output`. -/
def serverInit (command : List String) (queueMax : QueueMaxArg) (cwdArg : Option String)
    (instr : InstrArg) (serverName : Option String) (printOutput : Bool)
    (isAbs : String → Bool) (parentDir : String → String) :
    Except String ServerState := do
  let si ← checkShutdownInstruction instr
  let cwd := deriveCwd isAbs parentDir cwdArg command
  match queueMax with
  | .nonInt => .error "queue_max must be an int"
  | .intArg n =>
    if n < 1 ∨ n > 20 then
      .error "queue_max must be between 1 and 20"
    else
      .ok { name := serverName, commandList := command, shutdownInstruction := si,
            cwd := cwd, queueMax := n.toNat, outputQueue := [], inputQueue := [],
            errorQueue := [], ran := false, running := false, printFlag := printOutput,
            procPoll := none }

/-! ### Concrete states used as witnesses -/

/-- A server that was started and whose child is alive; no shutdown
instruction configured. -/
def srvNoInstr : ServerState :=
  { name := some "srv", commandList := ["cmd"], shutdownInstruction := .noInstr,
    cwd := none, queueMax := 10, outputQueue := [], inputQueue := [], errorQueue := [],
    ran := true, running := true, printFlag := true, procPoll := none }

/-- A running server with the single shutdown instruction `"stop"`. -/
def srvStop : ServerState :=
  { srvNoInstr with shutdownInstruction := .single "stop" }

/-- A running server with the instruction sequence `("save", "stop")`. -/
def srvSeqAB : ServerState :=
  { srvNoInstr with shutdownInstruction := .seq ["save", "stop"] }

/-- A server that completed a shutdown: child exited with code 0,
`_running` already cleared. -/
def srvStopped : ServerState :=
  { srvStop with running := false, procPoll := some 0 }

/-- A never-started server (fresh from `__init__`). -/
def srvFresh : ServerState :=
  { srvStop with ran := false, running := false }

/-- An environment where the child exits promptly and every worker has
already finished. -/
def envQuick : ProcEnv :=
  { exitsInWait := true, outputAlive := false, inputAlive := false,
    errorAlive := false, finalPoll := some 0 }

/-- A registry holding one never-started server under the name `"a"`. -/
def mgrOne : Manager := { servers := [("a", srvFresh)] }

/-! ### Helper lemmas -/

/-- Length bookkeeping for a single bounded push. -/
lemma pushBounded_length_le (cap : Nat) (q : List String) (x : String)
    (hcap : 1 ≤ cap) (hq : q.length ≤ cap) : (pushBounded cap q x).length ≤ cap := by
  unfold pushBounded
  split
  · simp only [List.length_append, List.length_drop, List.length_cons, List.length_nil]
    omega
  · simp only [List.length_append, List.length_cons, List.length_nil]
    omega

/-- Folding pushes over a bounded queue keeps the tail suffix: the result is
the last `cap` elements of everything ever enqueued, in arrival order. -/
lemma pushAll_eq_drop (cap : Nat) (hcap : 1 ≤ cap) :
    ∀ (xs q : List String), q.length ≤ cap →
      pushAll cap q xs = (q ++ xs).drop ((q ++ xs).length - cap) := by
  intro xs
  induction xs with
  | nil =>
    intro q hq
    have h0 : q.length - cap = 0 := by omega
    simp [pushAll, h0]
  | cons x xs ih =>
    intro q hq
    have step : pushAll cap q (x :: xs) = pushAll cap (pushBounded cap q x) xs := rfl
    rw [step]
    by_cases hfull : cap ≤ q.length
    · have hlen : q.length = cap := le_antisymm hq hfull
      have hq1 : 1 ≤ q.length := le_trans hcap hfull
      have hpb : pushBounded cap q x = q.drop 1 ++ [x] := by
        unfold pushBounded
        simp [hfull]
      have hle : (pushBounded cap q x).length ≤ cap :=
        pushBounded_length_le cap q x hcap hq
      rw [ih _ hle, hpb]
      have hsplit : (q.drop 1 ++ [x]) ++ xs = (q ++ x :: xs).drop 1 := by
        rw [List.drop_append_of_le_length (by omega)]
        simp
      rw [hsplit, List.drop_drop]
      congr 1
      simp only [List.length_drop, List.length_append, List.length_cons]
      omega
    · push_neg at hfull
      have hpb : pushBounded cap q x = q ++ [x] := by
        unfold pushBounded
        simp [Nat.not_le_of_lt hfull]
      have hle : (pushBounded cap q x).length ≤ cap :=
        pushBounded_length_le cap q x hcap hq
      rw [ih _ hle, hpb]
      simp

/-- `takeWhile` runs past an initial segment on which the predicate holds everywhere. -/
lemma takeWhile_append_all {α : Type} (p : α → Bool) (xs ys : List α)
    (h : ∀ a ∈ xs, p a = true) :
    (xs ++ ys).takeWhile p = xs ++ ys.takeWhile p := by
  induction xs with
  | nil => simp
  | cons x xs ih =>
    have hx : p x = true := h x (List.mem_cons_self x xs)
    have ih' := ih (fun a ha => h a (List.mem_cons_of_mem x ha))
    simp [List.takeWhile_cons, hx, ih']

/-- The trace of the instruction loop: one enqueue and one sleep per
instruction, in order. -/
lemma sendInstructions_events (d : Nat) :
    ∀ (st : ServerState) (l : List String),
      (sendInstructions d st l).2 =
        l.flatMap (fun i => [Event.enqueueStdin i, Event.sleepSec d]) := by
  intro st l
  induction l generalizing st with
  | nil => simp [sendInstructions]
  | cons i rest ih => simp [sendInstructions, ih]

/-- No event of the instruction loop is a `process.wait`. -/
lemma sendInstructions_no_wait (d : Nat) (l : List String) :
    ∀ e ∈ l.flatMap (fun i => [Event.enqueueStdin i, Event.sleepSec d]),
      (!e.isWait) = true := by
  intro e he
  simp only [List.mem_flatMap, List.mem_cons, List.mem_singleton] at he
  obtain ⟨i, _, hi⟩ := he
  rcases hi with h | h | h
  · subst h; rfl
  · subst h; rfl
  · cases h

/-- The stdin writes of the instruction-loop trace are the instructions
themselves. -/
lemma stdinWrites_instr_events (d : Nat) (l : List String) :
    stdinWrites (l.flatMap (fun i => [Event.enqueueStdin i, Event.sleepSec d])) = l := by
  induction l with
  | nil => rfl
  | cons i rest ih => simp only [List.flatMap_cons]; simp [stdinWrites] at ih ⊢; exact ih

/-- The events appended by `shutdownJoins` after the events it was handed. -/
def joinTail (env : ProcEnv) : List Event :=
  (if env.outputAlive then [Event.joinOutput] else []) ++
  (if env.inputAlive then [Event.enqueueStdin "\n", Event.joinInput] else []) ++
  (if env.errorAlive then [Event.joinError] else [])

/-- `shutdownJoins` only ever appends to the trace it is given. -/
lemma shutdownJoins_trace (st : ServerState) (env : ProcEnv) (evs : List Event) :
    (shutdownJoins st env evs).2.1 = evs ++ joinTail env := by
  unfold shutdownJoins joinTail
  rcases env with ⟨ew, eo, ei, ee, fp⟩
  cases eo <;> cases ei <;> cases ee <;> cases fp <;> simp

/-- `shutdown` never issues the forced-kill signal in its join phase. -/
lemma kill_not_mem_joinTail (env : ProcEnv) : Event.kill ∉ joinTail env := by
  unfold joinTail
  rcases env with ⟨ew, eo, ei, ee, fp⟩
  cases eo <;> cases ei <;> cases ee <;> simp

/-- `find?` by key commutes with a value-only rewrite of an association
list. -/
lemma find?_map_keyed {α β : Type} (l : List (String × α)) (g : String × α → β)
    (name : String) :
    (l.map (fun p => (p.1, g p))).find? (fun p => p.1 == name) =
      (l.find? (fun p => p.1 == name)).map (fun p => (p.1, g p)) := by
  induction l with
  | nil => rfl
  | cons p rest ih =>
    by_cases h : p.1 == name
    · simp [List.find?, h]
    · simp only [List.map_cons, List.find?, h]
      simpa [h] using ih

/-- `is_running` never touches the queues, the instruction, or the
lifecycle-relevant fields: it only clears `_running`. -/
lemma is_running_fields (st : ServerState) :
    ((is_running st).1).inputQueue = st.inputQueue ∧
    ((is_running st).1).outputQueue = st.outputQueue ∧
    ((is_running st).1).errorQueue = st.errorQueue ∧
    ((is_running st).1).ran = st.ran ∧
    ((is_running st).1).procPoll = st.procPoll ∧
    ((is_running st).1).shutdownInstruction = st.shutdownInstruction := by
  rcases st with ⟨nm, cl, si, cw, qm, oq, iq, errq, rn, rg, pf, pp⟩
  cases rn <;> cases pp <;> simp [is_running]

/-! ### Claims -/

/-- C7: for every capacity in `[1,20]`, a bounded Line Queue never holds more
than `capacity` lines, and pushing when full evicts the oldest line: after
any sequence of worker pushes starting from a valid queue, the queue holds
exactly the newest `capacity` lines of everything enqueued, in arrival
(FIFO) order. -/
theorem C7_bounded_queue_ring (cap : Nat) (h1 : 1 ≤ cap) (h2 : cap ≤ 20)
    (q xs : List String) (hq : q.length ≤ cap) :
    (pushAll cap q xs).length ≤ cap ∧
    pushAll cap q xs = (q ++ xs).drop ((q ++ xs).length - cap) := by
  have hmain := pushAll_eq_drop cap h1 xs q hq
  constructor
  · rw [hmain]
    simp only [List.length_drop]
    omega
  · exact hmain

/-- Witness for C7: capacity 2, pushing `"1","2","3"` into an empty queue
keeps only the newest two lines, `"2","3"`. -/
theorem C7_witness :
    (pushAll 2 [] ["1", "2", "3"]).length ≤ 2 ∧
    pushAll 2 [] ["1", "2", "3"] = ["2", "3"] := by
  have h := C7_bounded_queue_ring 2 (by decide) (by decide) [] ["1", "2", "3"] (by decide)
  refine ⟨h.1, ?_⟩
  rw [h.2]
  decide

/-- C9: `read()` and `read_error()` on an empty queue return the empty
string at once and leave the state untouched, whatever the rest of the
supervisor state is; both are total functions of the state in this
embedding, so they never block and never raise. -/
theorem C9_read_empty_queue (st : ServerState)
    (ho : st.outputQueue = []) (he : st.errorQueue = []) :
    read st = ("", st) ∧ read_error st = ("", st) := by
  rcases st with ⟨nm, cl, si, cw, qm, oq, iq, errq, rn, rg, pf, pp⟩
  simp only at ho he
  subst ho
  subst he
  exact ⟨rfl, rfl⟩

/-- Witness for C9: a fresh supervisor has empty queues and both reads
return `""`. -/
theorem C9_witness :
    read srvFresh = ("", srvFresh) ∧ read_error srvFresh = ("", srvFresh) :=
  C9_read_empty_queue srvFresh rfl rfl

/-- C10: the empty string passes `write`'s type check (line 120 tests the
type, not the content) and is enqueued onto the stdin-queue; but the stdin
worker's newline check `input_string[-1]` (line 210) indexes the last
character, which does not exist for an empty line, so the worker's per-line
step is total only on non-empty lines; the `"\n"` sentinel `shutdown`
writes is such a non-empty line. -/
theorem C10_empty_write_vs_worker (st : ServerState) (s : String)
    (hs : s.isEmpty = false) :
    write st (.str "") = .ok (writeStr st "") ∧
    (writeStr st "").inputQueue = st.inputQueue ++ [""] ∧
    inputWorkerLine "" = none ∧
    (inputWorkerLine s).isSome = true ∧
    ("\n").isEmpty = false ∧
    inputWorkerLine "\n" = some "\n" := by
  refine ⟨rfl, rfl, rfl, ?_, by decide, by decide⟩
  unfold inputWorkerLine
  rw [hs]
  simp only [Bool.false_eq_true, if_false]
  split <;> rfl

/-- Witness for C10, at the non-empty line `"stop"`. -/
theorem C10_witness :
    write srvFresh (.str "") = .ok (writeStr srvFresh "") ∧
    inputWorkerLine "" = none ∧
    (inputWorkerLine "stop").isSome = true ∧
    inputWorkerLine "\n" = some "\n" := by
  have h := C10_empty_write_vs_worker srvFresh "stop" (by decide)
  exact ⟨h.1, h.2.2.1, h.2.2.2.1, h.2.2.2.2.2⟩

/-- C1 (refuting the claim on the code): `Server.run` hands the stderr
worker `self._input_queue` (line 96), not `self._error_queue`, so a line
the child produces on stderr is enqueued onto the stdin-queue; a subsequent
`read_error()` finds the stderr-queue empty and returns `""` instead of the
line.  The claim would require the line to land on the stderr-queue. -/
theorem C1_stderr_misrouted :
    errorWorkerQueueArg = QueueId.inQ ∧
    errorWorkerQueueArg ≠ QueueId.errQ ∧
    (errorWorkerStep srvNoInstr "err\n").inputQueue = ["err\n"] ∧
    (errorWorkerStep srvNoInstr "err\n").errorQueue = [] ∧
    (read_error (errorWorkerStep srvNoInstr "err\n")).1 = "" := by
  refine ⟨rfl, by decide, by decide, by decide, by decide⟩

/-- The events `instrPhase` contributes: the pre-wait part of a `shutdown`
trace. -/
def preWaitEvents (st : ServerState) (d : Nat) : List Event :=
  if instrTruthy st.shutdownInstruction then
    match st.shutdownInstruction with
    | .single s => [Event.enqueueStdin s]
    | .seq l => l.flatMap (fun i => [Event.enqueueStdin i, Event.sleepSec d])
    | .noInstr => []
  else [Event.terminate]

lemma instrPhase_events (st : ServerState) (d : Nat) :
    (instrPhase st d).2 = preWaitEvents st d := by
  unfold instrPhase preWaitEvents
  by_cases ht : instrTruthy st.shutdownInstruction
  · simp only [ht, if_true]
    cases st.shutdownInstruction <;> simp [sendInstructions_events]
  · simp [ht]

lemma sendInstructions_name (d : Nat) :
    ∀ (st : ServerState) (l : List String), (sendInstructions d st l).1.name = st.name := by
  intro st l
  induction l generalizing st with
  | nil => rfl
  | cons i rest ih => simpa [sendInstructions] using ih (writeStr st i)

lemma instrPhase_name (st : ServerState) (d : Nat) :
    (instrPhase st d).1.name = st.name := by
  unfold instrPhase
  by_cases ht : instrTruthy st.shutdownInstruction
  · simp only [ht, if_true]
    cases st.shutdownInstruction <;> simp [writeStr, sendInstructions_name]
  · simp [ht]

lemma preWaitEvents_no_wait (st : ServerState) (d : Nat) :
    ∀ e ∈ preWaitEvents st d, (!e.isWait) = true := by
  unfold preWaitEvents
  by_cases ht : instrTruthy st.shutdownInstruction
  · simp only [ht, if_true]
    cases st.shutdownInstruction with
    | noInstr => intro e he; cases he
    | single s =>
      intro e he
      rcases List.mem_singleton.mp he with h
      subst h; rfl
    | seq l => exact sendInstructions_no_wait d l
  · simp only [ht, if_false]
    intro e he
    rcases List.mem_singleton.mp he with h
    subst h; rfl

/-- For a running supervisor, every `shutdown` trace is the instruction (or
terminate) phase, then the `process.wait`, then a tail of joins, possibly a
timeout report and the `"\n"` sentinel write — and never a forced kill. -/
lemma shutdown_trace_shape (st : ServerState) (env : ProcEnv) (w d : Nat)
    (hran : st.ran = true) (halive : st.procPoll = none) :
    ∃ tail, (shutdown st env w d).2.1 = preWaitEvents st d ++ Event.waitProc w :: tail ∧
      Event.kill ∉ tail := by
  have hpolled : is_running st = (st, true) := by
    simp [is_running, hran, halive]
  simp only [shutdown, hpolled]
  by_cases he : env.exitsInWait
  · refine ⟨joinTail env, ?_, kill_not_mem_joinTail env⟩
    simp [he, shutdownJoins_trace, instrPhase_events]
  · simp only [he, Bool.false_eq_true, if_false]
    cases hn : (instrPhase st d).1.name with
    | none =>
      refine ⟨[], ?_, by simp⟩
      simp [instrPhase_events]
    | some nm =>
      refine ⟨Event.printLine (nm ++ " ERROR: Process failed to terminate") :: joinTail env,
        ?_, ?_⟩
      · simp [shutdownJoins_trace, instrPhase_events]
      · simp only [List.mem_cons]
        rintro (h | h)
        · cases h
        · exact kill_not_mem_joinTail env h

/-- C5: for a running supervisor, `shutdown` with a single-string
instruction performs exactly one write to the stdin-queue before the wait;
with an N-element instruction sequence, the pre-wait trace is exactly the N
writes in order, each followed by a sleep of the configured delay; with no
instruction configured, the only pre-wait action is the graceful
`terminate` signal, and no forced `kill` appears anywhere in the call. -/
theorem C5_shutdown_protocol (st : ServerState) (env : ProcEnv) (w d : Nat)
    (hran : st.ran = true) (halive : st.procPoll = none) :
    (∀ s, st.shutdownInstruction = .single s → s.isEmpty = false →
      stdinWrites (beforeWait (shutdown st env w d).2.1) = [s]) ∧
    (∀ l, st.shutdownInstruction = .seq l → l.isEmpty = false →
      beforeWait (shutdown st env w d).2.1 =
        l.flatMap (fun i => [Event.enqueueStdin i, Event.sleepSec d]) ∧
      stdinWrites (beforeWait (shutdown st env w d).2.1) = l) ∧
    (st.shutdownInstruction = .noInstr →
      beforeWait (shutdown st env w d).2.1 = [Event.terminate] ∧
      Event.kill ∉ (shutdown st env w d).2.1) := by
  obtain ⟨tail, htr, hk⟩ := shutdown_trace_shape st env w d hran halive
  have hbw : beforeWait (shutdown st env w d).2.1 = preWaitEvents st d := by
    rw [htr]
    unfold beforeWait
    rw [takeWhile_append_all _ _ _ (preWaitEvents_no_wait st d)]
    simp [Event.isWait]
  refine ⟨?_, ?_, ?_⟩
  · intro s hs hne
    rw [hbw]
    unfold preWaitEvents
    rw [hs]
    simp [instrTruthy, hne, stdinWrites]
  · intro l hl hne
    have hpw : preWaitEvents st d =
        l.flatMap (fun i => [Event.enqueueStdin i, Event.sleepSec d]) := by
      unfold preWaitEvents
      rw [hl]
      simp [instrTruthy, hne]
    refine ⟨by rw [hbw, hpw], ?_⟩
    rw [hbw, hpw]
    exact stdinWrites_instr_events d l
  · intro hni
    have hpw : preWaitEvents st d = [Event.terminate] := by
      unfold preWaitEvents
      rw [hni]
      simp [instrTruthy]
    refine ⟨by rw [hbw, hpw], ?_⟩
    rw [htr, hpw]
    simp only [List.mem_append, List.mem_cons, List.mem_singleton]
    rintro ((h | h) | h | h)
    · cases h
    · cases h
    · cases h
    · exact hk h

/-- Witness for C5, at concrete running supervisors with each of the three
shutdown-spec shapes. -/
theorem C5_witness :
    stdinWrites (beforeWait (shutdown srvStop envQuick 10 1).2.1) = ["stop"] ∧
    stdinWrites (beforeWait (shutdown srvSeqAB envQuick 10 1).2.1) = ["save", "stop"] ∧
    beforeWait (shutdown srvNoInstr envQuick 10 1).2.1 = [Event.terminate] :=
  ⟨(C5_shutdown_protocol srvStop envQuick 10 1 rfl rfl).1 "stop" rfl (by decide),
   ((C5_shutdown_protocol srvSeqAB envQuick 10 1 rfl rfl).2.1 ["save", "stop"] rfl
      (by decide)).2,
   ((C5_shutdown_protocol srvNoInstr envQuick 10 1 rfl rfl).2.2 rfl).1⟩

/-- C6: `shutdown` on a supervisor that is not currently running is a no-op:
it returns `None` (raising nothing), records no write, signal, sleep, wait
or join, and leaves the abstract lifecycle state and the stdin-queue
unchanged; when the `_running` flag is already clear (a supervisor already
Stopped, or never started) the entire concrete state is unchanged, so a
second `shutdown` after a completed one has no effect at all. -/
theorem C6_shutdown_not_running_noop (st : ServerState) (env : ProcEnv) (w d : Nat)
    (h : (is_running st).2 = false) :
    shutdown st env w d = ((is_running st).1, [], .ok none) ∧
    abstractState (is_running st).1 = abstractState st ∧
    ((is_running st).1).inputQueue = st.inputQueue ∧
    (st.running = false → (is_running st).1 = st) := by
  have hf := is_running_fields st
  refine ⟨?_, ?_, hf.1, ?_⟩
  · simp [shutdown, h]
  · unfold abstractState
    rw [hf.2.2.2.1, hf.2.2.2.2.1]
  · intro hr
    rcases st with ⟨nm, cl, si, cw, qm, oq, iq, errq, rn, rg, pf, pp⟩
    simp only at hr
    subst hr
    cases rn <;> cases pp <;> rfl

/-- Witness for C6: a second `shutdown` on a supervisor whose child already
exited with code 0 and whose `_running` flag is clear does nothing. -/
theorem C6_witness :
    shutdown srvStopped envQuick 10 1 = (srvStopped, [], .ok none) := by
  have h := C6_shutdown_not_running_noop srvStopped envQuick 10 1 (by decide)
  rw [h.1, h.2.2.2 rfl]

/-- C8: with any valid shutdown-instruction argument, `Server.__init__`
raises `ValueError` exactly when `queue_max` is not an `int` or lies
outside `[1,20]`; every integer capacity in `[1,20]` constructs
successfully. -/
theorem C8_capacity_validation (command : List String) (cwdArg : Option String)
    (instr : InstrArg) (serverName : Option String) (printOutput : Bool)
    (isAbs : String → Bool) (parentDir : String → String)
    (si : ShutdownInstr) (hinstr : checkShutdownInstruction instr = .ok si) :
    (∀ n : Int,
      (∃ st, serverInit command (.intArg n) cwdArg instr serverName printOutput
          isAbs parentDir = .ok st) ↔ (1 ≤ n ∧ n ≤ 20)) ∧
    (∃ e, serverInit command .nonInt cwdArg instr serverName printOutput
        isAbs parentDir = .error e) := by
  constructor
  · intro n
    simp only [serverInit, bind, Except.bind, hinstr]
    by_cases hn : n < 1 ∨ n > 20
    · simp only [hn, if_true]
      constructor
      · rintro ⟨st, hst⟩
        cases hst
      · intro hrange
        omega
    · simp only [hn, if_false]
      constructor
      · intro _
        omega
      · intro _
        exact ⟨_, rfl⟩
  · simp only [serverInit, bind, Except.bind, hinstr]
    exact ⟨_, rfl⟩

/-- Witness for C8: capacity 10 constructs, capacity 0 does not, a
non-integer capacity raises. -/
theorem C8_witness :
    (∃ st, serverInit ["cmd"] (.intArg 10) none .noneA (some "srv") true
        (fun _ => false) id = .ok st) ∧
    ¬ (∃ st, serverInit ["cmd"] (.intArg 0) none .noneA (some "srv") true
        (fun _ => false) id = .ok st) ∧
    (∃ e, serverInit ["cmd"] .nonInt none .noneA (some "srv") true
        (fun _ => false) id = .error e) := by
  have h := C8_capacity_validation ["cmd"] none .noneA (some "srv") true
    (fun _ => false) id .noInstr rfl
  refine ⟨(h.1 10).mpr (by norm_num), ?_, h.2⟩
  intro hc
  have := (h.1 0).mp hc
  omega

/-- When the child has already exited, `shutdown` is the no-op branch: the
`is_running` guard fails (clearing `_running`), nothing is written or
signalled, and `None` is returned. -/
lemma shutdown_of_exited (st : ServerState) (env : ProcEnv) (w d : Nat) (c : Int)
    (hran : st.ran = true) (hpoll : st.procPoll = some c) :
    shutdown st env w d = ({ st with running := false }, [], .ok none) := by
  have hpolled : is_running st = ({ st with running := false }, false) := by
    simp [is_running, hran, hpoll]
  simp [shutdown, hpolled]

/-- C2 (refuting the claim on the code): a fresh supervisor whose child
exits in the same instant as the spawn.  `run` does call `self.shutdown()`
(line 105), but the `else` branch has no `return` statement, so the call
returns `None` — a falsy value, not the boolean `False` the claim states. -/
theorem C2_counterexample :
    (run srvFresh false (some 1) envQuick).map RunOutcome.calledShutdown = .ok true ∧
    (run srvFresh false (some 1) envQuick).map RunOutcome.result = .ok none ∧
    ¬ (run srvFresh false (some 1) envQuick).map RunOutcome.result = .ok (some false) := by
  refine ⟨rfl, rfl, ?_⟩
  intro h
  rw [show (run srvFresh false (some 1) envQuick).map RunOutcome.result = .ok none from rfl]
    at h
  injection h with h'
  cases h'

/-- C2 (amended): provided `__init__` set the `name` attribute, `start()`
returns `True` when the child is still alive immediately after the spawn;
when the child exited instantly, it calls `shutdown()` (a no-op, since the
poll already reports the exit) and returns `None` — a falsy value rather
than the boolean `False`. -/
theorem C2_run_return (st : ServerState) (debug : Bool) (p : Poll) (env : ProcEnv)
    (hname : st.name.isSome = true) :
    (p = none → (run st debug p env).map RunOutcome.result = .ok (some true)) ∧
    (∀ c : Int, p = some c →
      (run st debug p env).map RunOutcome.calledShutdown = .ok true ∧
      (run st debug p env).map RunOutcome.result = .ok none) := by
  obtain ⟨nm, hnm⟩ := Option.isSome_iff_exists.mp hname
  constructor
  · intro hp
    subst hp
    simp [run, hnm, Except.map]
  · intro c hp
    subst hp
    have hsd := shutdown_of_exited
      { st with name := some nm, ran := true, procPoll := some c, running := true }
      env 10 1 c rfl rfl
    constructor <;> simp [run, hnm, Except.map, hsd]

/-- Witness for C2 (amended), at a fresh named supervisor: alive child gives
`True`; instantly exited child gives a `shutdown` call and `None`. -/
theorem C2_witness :
    (run srvFresh false none envQuick).map RunOutcome.result = .ok (some true) ∧
    (run srvFresh false (some 0) envQuick).map RunOutcome.calledShutdown = .ok true ∧
    (run srvFresh false (some 0) envQuick).map RunOutcome.result = .ok none := by
  refine ⟨(C2_run_return srvFresh false none envQuick rfl).1 rfl, ?_, ?_⟩
  · exact ((C2_run_return srvFresh false (some 0) envQuick rfl).2 0 rfl).1
  · exact ((C2_run_return srvFresh false (some 0) envQuick rfl).2 0 rfl).2

/-- C3 (refuting the claim on the code): `run(debug=True)` does inherit the
streams (no pipes), but the creation and start of the three workers
(lines 89-100) sits outside the `if debug` branch, so the workers are
created and started all the same. -/
theorem C3_counterexample :
    (run srvFresh true none envQuick).map RunOutcome.streamsPiped = .ok false ∧
    (run srvFresh true none envQuick).map RunOutcome.workersStarted = .ok 3 ∧
    ¬ (run srvFresh true none envQuick).map RunOutcome.workersStarted = .ok 0 := by
  refine ⟨rfl, rfl, ?_⟩
  intro h
  rw [show (run srvFresh true none envQuick).map RunOutcome.workersStarted = .ok 3 from rfl]
    at h
  injection h with h'
  cases h'

/-- C3 (amended): provided `__init__` set the `name` attribute, `start()`
attaches the three standard streams as pipes exactly when debug mode is not
requested, and in either mode it creates and starts the three stream
workers. -/
theorem C3_run_streams_and_workers (st : ServerState) (debug : Bool) (p : Poll)
    (env : ProcEnv) (hname : st.name.isSome = true) :
    (run st debug p env).map RunOutcome.streamsPiped = .ok (!debug) ∧
    (run st debug p env).map RunOutcome.workersStarted = .ok 3 := by
  obtain ⟨nm, hnm⟩ := Option.isSome_iff_exists.mp hname
  cases p with
  | none => constructor <;> simp [run, hnm, Except.map]
  | some c =>
    have hsd := shutdown_of_exited
      { st with name := some nm, ran := true, procPoll := some c, running := true }
      env 10 1 c rfl rfl
    constructor <;> simp [run, hnm, Except.map, hsd]

/-- Witness for C3 (amended), in both modes. -/
theorem C3_witness :
    (run srvFresh true none envQuick).map RunOutcome.streamsPiped = .ok false ∧
    (run srvFresh false none envQuick).map RunOutcome.streamsPiped = .ok true ∧
    (run srvFresh false none envQuick).map RunOutcome.workersStarted = .ok 3 := by
  refine ⟨?_, ?_, ?_⟩
  · exact (C3_run_streams_and_workers srvFresh true none envQuick rfl).1
  · exact (C3_run_streams_and_workers srvFresh false none envQuick rfl).1
  · exact (C3_run_streams_and_workers srvFresh false none envQuick rfl).2

/-- C4 (refuting the claim on the code): a registry with one never-started
server.  `send_all` calls `serv.write(message)` on every entry with no
running check, so the message lands in the stdin-queue of the non-running
server — it is not a no-op for it. -/
theorem C4_counterexample :
    (is_running srvFresh).2 = false ∧
    (send_all mgrOne "ping").servers = [("a", writeStr srvFresh "ping")] ∧
    (writeStr srvFresh "ping").inputQueue = ["ping"] ∧
    ¬ findServer (send_all mgrOne "ping") "a" = some srvFresh := by
  refine ⟨rfl, rfl, rfl, by decide⟩

/-- C4 (amended): `send_all(message)` enqueues the message onto the
stdin-queue of every registered supervisor, running or not; only the
targeted `send(name, message)` checks the running state, and on a
non-running supervisor it writes nothing (the lookup's `is_running` poll
may clear the `_running` flag, but the stdin-queue — like every queue — is
untouched). -/
theorem C4_send_vs_send_all (m : Manager) (msg : String) :
    (∀ name st, findServer m name = some st →
      findServer (send_all m msg) name = some (writeStr st msg)) ∧
    (∀ name st, findServer m name = some st → (is_running st).2 = false →
      findServer (send m name msg) name = some ((is_running st).1) ∧
      ((is_running st).1).inputQueue = st.inputQueue) := by
  constructor
  · intro name st h
    unfold findServer at h ⊢
    unfold send_all
    rw [find?_map_keyed]
    obtain ⟨p, hp, hp2⟩ := Option.map_eq_some'.mp h
    rw [hp]
    simp only [Option.map_some']
    rw [hp2]
  · intro name st h hnr
    refine ⟨?_, (is_running_fields st).1⟩
    unfold findServer at h ⊢
    unfold send
    rw [find?_map_keyed]
    obtain ⟨p, hp, hp2⟩ := Option.map_eq_some'.mp h
    have hkey : (p.1 == name) = true := by
      have h' := List.find?_some hp
      simpa using h'
    rw [hp]
    simp only [Option.map_some']
    unfold sendEntry
    rw [hkey, hp2]
    simp [hnr]

/-- Witness for C4 (amended): on the one-entry registry, `send_all`
delivers to the non-running server while the targeted `send` does not. -/
theorem C4_witness :
    findServer (send_all mgrOne "ping") "a" = some (writeStr srvFresh "ping") ∧
    findServer (send mgrOne "a" "ping") "a" = some ((is_running srvFresh).1) := by
  have h := C4_send_vs_send_all mgrOne "ping"
  exact ⟨h.1 "a" srvFresh rfl, (h.2 "a" srvFresh rfl (by decide)).1⟩

end ServerManagerPy
